import Mathlib

/-!
# Emergency response dashboard and plan page

A shallow embedding of the three JavaScript sources

* `dashboard/src/api.js`  (the `api` fetch helper),
* `dashboard/src/App.jsx` (the React dashboard: `loadData`, `filtered`, `metrics`,
  `setStatus`, the severity pie cells),
* `src/emergency_ai/web/app.js` (the static plan page: `severityClass`, `listMarkup`,
  the submit handler),

followed by theorems about them.

Conventions of the embedding.

* A JavaScript string is a Lean `String`, that is, well-formed Unicode text. Strict equality
  of strings is equality, and `includes` is containment as a contiguous run of characters.
* A value produced by `JSON.parse` is a `JsVal`; the extra constructor `undefined` is the
  result of reading a property that does not exist.
* JavaScript numbers are IEEE doubles.  They are kept abstract: the development is generic in a
  type `Num` and in an `Engine Num` that supplies the number operations the pages use
  (`Number::toString`, truthiness, comparison with an integer literal, `StringToNumber`) together
  with the wording of the `TypeError` messages, which differs between browsers.
* A thrown exception is an `Except.error` holding the `name` and `message` of the error object.
* An `async` function is split at its `await` points: the outcome of every awaited network call
  is an argument of the model, and the requests it issues are returned in a log.
-/

namespace EmergencyApp

/-! ## JavaScript values and the primitive operations used by the pages -/

/-- A value obtained from `JSON.parse`, or `undefined`. An object is the list of its own
properties; a lookup takes the first binding of a key. -/
inductive JsVal (Num : Type) where
  | undefined
  | null
  | bool (b : Bool)
  | num (n : Num)
  | str (s : String)
  | arr (items : List (JsVal Num))
  | obj (fields : List (String × JsVal Num))

/-- The `name` and `message` of a thrown error object. -/
structure JsError where
  name : String
  message : String
deriving DecidableEq, Repr

/-- The situations in which the modelled code raises a `TypeError`. -/
inductive TypeErrorKind where
  | readOfUndefined (key : String)
  | readOfNull (key : String)
  | notAFunction (key : String)
  | toPrimitive
deriving DecidableEq, Repr

/-- The operations of the host JavaScript engine that the pages rely on. -/
structure Engine (Num : Type) where
  /-- `Number::toString`. -/
  numToString : Num → String
  /-- `ToBoolean` on a number: false exactly for `+0`, `-0` and `NaN`. -/
  numTruthy : Num → Bool
  /-- The comparison `n >= k` with an integer literal `k`. -/
  numGe : Num → Nat → Bool
  /-- `StringToNumber`. -/
  stringToNumber : String → Num
  /-- The number with the given natural value. -/
  ofNat : Nat → Num
  /-- The value `NaN`. -/
  nan : Num
  /-- The message text of a `TypeError`. -/
  typeErrorMessage : TypeErrorKind → String
  /-- A natural number is truthy exactly when it is not zero. -/
  truthy_ofNat : ∀ n, numTruthy (ofNat n) = decide (n ≠ 0)

variable {Num : Type}

/-- The error object created by `new Error(message)`. -/
def mkError (message : String) : JsError :=
  { name := "Error", message := message }

/-- The `TypeError` raised by the engine in the given situation. -/
def typeError (E : Engine Num) (k : TypeErrorKind) : JsError :=
  { name := "TypeError", message := E.typeErrorMessage k }

namespace JsVal

/-- Does the object have an own property called `k`? -/
def hasKey (k : String) : List (String × JsVal Num) → Bool
  | [] => false
  | (k', _) :: rest => k' == k || hasKey k rest

/-- The own property `k` of an object, `undefined` when there is none. -/
def lookup (k : String) : List (String × JsVal Num) → JsVal Num
  | [] => undefined
  | (k', v) :: rest => if k' == k then v else lookup k rest

/-- The values `undefined` and `null`. -/
def isNullish : JsVal Num → Bool
  | undefined => true
  | null => true
  | _ => false

/-- `ToBoolean`. -/
def truthy (E : Engine Num) : JsVal Num → Bool
  | undefined => false
  | null => false
  | bool b => b
  | num n => E.numTruthy n
  | str s => s != ""
  | arr _ => true
  | obj _ => true

/-- The expression `a || b` (both operands already evaluated, no side effects). -/
def or (E : Engine Num) (a b : JsVal Num) : JsVal Num :=
  if truthy E a then a else b

mutual
/-- `ToString`. An object from `JSON.parse` inherits `Object.prototype.toString` unless it has an
own (hence non-callable) `toString` property, in which case the conversion throws; an array is
converted by `Array.prototype.join` with separator `","`. -/
def toStr (E : Engine Num) : JsVal Num → Except JsError String
  | undefined => .ok "undefined"
  | null => .ok "null"
  | bool b => .ok (if b then "true" else "false")
  | num n => .ok (E.numToString n)
  | str s => .ok s
  | arr xs => joinItems E "," xs
  | obj fs => if hasKey "toString" fs then .error (typeError E .toPrimitive)
              else .ok "[object Object]"
termination_by structural v => v
/-- `Array.prototype.join` on the elements of an array: `undefined` and `null` elements
contribute the empty string, any other element its `ToString`. -/
def joinItems (E : Engine Num) (sep : String) : List (JsVal Num) → Except JsError String
  | [] => .ok ""
  | x :: rest => do
    let a ← if isNullish x then pure "" else toStr E x
    match rest with
    | [] => pure a
    | _ :: _ =>
      let b ← joinItems E sep rest
      pure (a ++ sep ++ b)
termination_by structural l => l
end

/-- `ToNumber`. -/
def toNumber (E : Engine Num) : JsVal Num → Except JsError Num
  | undefined => .ok E.nan
  | null => .ok (E.ofNat 0)
  | bool b => .ok (E.ofNat (if b then 1 else 0))
  | num n => .ok n
  | str s => .ok (E.stringToNumber s)
  | arr xs => do
    let s ← joinItems E "," xs
    pure (E.stringToNumber s)
  | obj fs => if hasKey "toString" fs then .error (typeError E .toPrimitive)
              else .ok (E.stringToNumber "[object Object]")

/-- The comparison `v >= k` with an integer literal `k`. -/
def geLit (E : Engine Num) (v : JsVal Num) (k : Nat) : Except JsError Bool := do
  let n ← toNumber E v
  pure (E.numGe n k)

/-- The property read `v.key` for one of the property names that occur literally in the pages,
other than `length`, `join` and `map`: `detail`, `error`, `token`, `severity_distribution`,
`name`, `triage`, `incident_type`, `severity_score`, `urgent_signals`, `risk_context`,
`recommendations`, `actions`, `unit_id`, `suitability`, `eta_minutes`, `distance_km`.
None of them is defined on a built-in prototype, so only own properties of objects are found. -/
def get (E : Engine Num) (v : JsVal Num) (key : String) : Except JsError (JsVal Num) :=
  match v with
  | undefined => .error (typeError E (.readOfUndefined key))
  | null => .error (typeError E (.readOfNull key))
  | obj fs => .ok (lookup key fs)
  | _ => .ok undefined

/-- The optional chain `v?.key` for the same property names. -/
def getOpt (v : JsVal Num) (key : String) : JsVal Num :=
  match v with
  | obj fs => lookup key fs
  | _ => undefined

/-- The number of UTF-16 code units of a string. -/
def utf16Length (s : String) : Nat :=
  (s.toList.map fun c => if c.toNat < 65536 then 1 else 2).sum

/-- The property read `v.length`. -/
def length (E : Engine Num) (v : JsVal Num) : Except JsError (JsVal Num) :=
  match v with
  | undefined => .error (typeError E (.readOfUndefined "length"))
  | null => .error (typeError E (.readOfNull "length"))
  | arr xs => .ok (num (E.ofNat xs.length))
  | str s => .ok (num (E.ofNat (utf16Length s)))
  | obj fs => .ok (lookup "length" fs)
  | _ => .ok undefined

/-- The method call `v.join(sep)`: only arrays have a callable `join`. -/
def join (E : Engine Num) (v : JsVal Num) (sep : String) : Except JsError String :=
  match v with
  | undefined => .error (typeError E (.readOfUndefined "join"))
  | null => .error (typeError E (.readOfNull "join"))
  | arr xs => joinItems E sep xs
  | _ => .error (typeError E (.notAFunction "join"))

end JsVal

/-- `Array.prototype.map` with a callback that may throw: the elements are visited from left
to right and the first exception ends the call. -/
def mapThrowing {α β : Type} (f : α → Except JsError β) : List α → Except JsError (List β)
  | [] => .ok []
  | x :: rest => do
    let y ← f x
    let ys ← mapThrowing f rest
    pure (y :: ys)

/-! ## Strings -/

/-- Does the character list start with `needle`? -/
def startsWithChars : List Char → List Char → Bool
  | _, [] => true
  | [], _ :: _ => false
  | h :: hs, n :: ns => h == n && startsWithChars hs ns

/-- Does `needle` occur in the character list at some position? -/
def includesChars : List Char → List Char → Bool
  | [], needle => startsWithChars [] needle
  | h :: hs, needle => startsWithChars (h :: hs) needle || includesChars hs needle

/-- `String.prototype.includes`: `s.includes(search)`. -/
def includes (s search : String) : Bool :=
  includesChars s.toList search.toList

/-! ## `App.jsx`: the report table (`filtered`) and the headline counters (`metrics`) -/

/-- A report record as listed in the data model. The numeric fields are not read by any
computation modelled here and are kept as rationals. -/
structure Report where
  id : Nat
  created_at : String
  reporter_email : String
  emergency_type : String
  description : String
  latitude : ℚ
  longitude : ℚ
  severity_label : String
  severity_confidence : ℚ
  verification_score : ℚ
  suspicious : Bool
  status : String
  selfie_url : String
  accident_url : String
deriving DecidableEq

/-- The `filters` state. The initial value has three empty strings. -/
structure Filters where
  severity : String
  status : String
  emergency_type : String
deriving DecidableEq

/-- The initial `filters` state: `useState` with three empty strings. -/
def initialFilters : Filters :=
  { severity := "", status := "", emergency_type := "" }

/-- The callback passed to `reports.filter` in `filtered`. `toLowerCase` is
`String.prototype.toLowerCase`; `!s` on a string is true exactly for the empty string. -/
def filterCallback (toLowerCase : String → String) (filters : Filters) (r : Report) : Bool :=
  (!(filters.severity != "") || r.severity_label == filters.severity)
    && (!(filters.status != "") || r.status == filters.status)
    && (!(filters.emergency_type != "")
        || includes (toLowerCase r.emergency_type) (toLowerCase filters.emergency_type))

/-- The `filtered` memo of `App`: `reports.filter(callback)`. -/
def filtered (toLowerCase : String → String) (reports : List Report) (filters : Filters) :
    List Report :=
  reports.filter (filterCallback toLowerCase filters)

/-- The object returned by the `metrics` memo. -/
structure Metrics where
  total : Nat
  critical : Nat
  pending : Nat
  resolved : Nat
deriving DecidableEq, Repr

/-- The `metrics` memo of `App`. -/
def metrics (reports : List Report) : Metrics :=
  let total := reports.length
  let critical := (reports.filter fun r => r.severity_label == "Critical").length
  let pending := (reports.filter fun r => ["Pending", "Needs Review"].contains r.status).length
  let resolved := (reports.filter fun r => r.status == "Resolved").length
  { total := total, critical := critical, pending := pending, resolved := resolved }

/-- What one render of `App` derives from the `reports` and `filters` state. -/
structure Derived where
  filtered : List Report
  metrics : Metrics

/-- The two memos of one render. -/
def derive (toLowerCase : String → String) (reports : List Report) (filters : Filters) :
    Derived :=
  { filtered := filtered toLowerCase reports filters, metrics := metrics reports }

/-! ## The network -/

/-- The `body` option handed to `fetch`. -/
inductive RequestBody (Num : Type) where
  /-- No body. -/
  | none
  /-- The text `JSON.stringify(v)`. -/
  | json (v : JsVal Num)
  /-- A `FormData` object with the given entries. -/
  | form (fields : List (String × String))
  /-- A value handed to `fetch` as it is. -/
  | value (v : JsVal Num)

/-- A call of `fetch`. -/
structure Request (Num : Type) where
  method : String
  url : String
  headers : List (String × String)
  body : RequestBody Num

/-- What a call of `fetch` followed by `res.json()` produces: either `fetch` rejects (no
response was received), or a response with a status code arrives, whose body `res.json()`
either parses or rejects. -/
inductive Outcome (Num : Type) where
  | rejected (e : JsError)
  | response (status : Nat) (json : Except JsError (JsVal Num))

/-- The `ok` flag of a response: the status is in the range 200 to 299. -/
def isOk (status : Nat) : Bool :=
  decide (200 ≤ status) && decide (status ≤ 299)

/-! ## `api.js` -/

/-- The options object of `api`, with the defaults of its parameter destructuring
(`body` and `token` default to `undefined`). -/
structure ApiOptions (Num : Type) where
  method : String := "GET"
  token : JsVal Num := .undefined
  body : JsVal Num := .undefined
  isForm : Bool := false

/-- The part of `api` before `await fetch`: the header object and the request. The template
literal for the bearer header converts the token with `ToString`, which may throw. -/
def apiRequest (E : Engine Num) (apiBase path : String) (opts : ApiOptions Num) :
    Except JsError (Request Num) := do
  let h1 : List (String × String) :=
    if !opts.isForm then [("Content-Type", "application/json")] else []
  let h2 ← if opts.token.truthy E then do
      let t ← opts.token.toStr E
      pure (h1 ++ [("Authorization", "Bearer " ++ t)])
    else pure h1
  let body : RequestBody Num :=
    if opts.isForm then (if opts.body.isNullish then .none else .value opts.body)
    else if opts.body.truthy E then .json opts.body
    else .none
  pure { method := opts.method, url := apiBase ++ path, headers := h2, body := body }

/-- The part of `api` after `await fetch`: parse the body, throw on a non-success status,
return the parsed body otherwise. -/
def apiResume (E : Engine Num) (o : Outcome Num) : Except JsError (JsVal Num) :=
  match o with
  | .rejected e => .error e
  | .response status json => do
    let data ← json
    if !isOk status then
      let detail ← data.get E "detail"
      let picked ← if detail.truthy E then pure detail else do
        let error ← data.get E "error"
        pure (if error.truthy E then error else .str "API error")
      let message ← picked.toStr E
      throw (mkError message)
    else
      pure data

/-- The function `api`: the requests it issued and its result (`.error` is a rejected
promise). `net` gives the outcome of each request. -/
def api (E : Engine Num) (apiBase : String) (net : Request Num → Outcome Num) (path : String)
    (opts : ApiOptions Num) : List (Request Num) × Except JsError (JsVal Num) :=
  match apiRequest E apiBase path opts with
  | .error e => ([], .error e)
  | .ok req => ([req], apiResume E (net req))

/-! ## `App.jsx`: state, `loadData`, `setStatus` -/

/-- The `useState` cells of `App`. `reports` and `analytics` hold whatever `api` returned. -/
structure AppState (Num : Type) where
  auth : JsVal Num
  reports : JsVal Num
  analytics : JsVal Num
  selected : JsVal Num
  filters : Filters
  error : String

/-- The initial state of `App`. -/
def initialState : AppState Num :=
  { auth := .null
    reports := .arr []
    analytics := .obj [("reports_per_type", .arr []), ("severity_distribution", .arr []),
      ("reports_over_time", .arr []), ("flagged_users", .arr [])]
    selected := .null
    filters := initialFilters
    error := "" }

/-- `Promise.all` on two promises: fulfilled with both values when both fulfil, rejected with
the reason of the promise that rejects first otherwise. `firstWins` says that the first promise
settles before the second when both reject. -/
def promiseAll {α : Type} (firstWins : Bool) (p q : Except JsError α) :
    Except JsError (α × α) :=
  match p, q with
  | .ok a, .ok b => .ok (a, b)
  | .error e, .ok _ => .error e
  | .ok _, .error e => .error e
  | .error e1, .error e2 => .error (if firstWins then e1 else e2)

/-- The token `loadData` works with: its argument, or `auth?.token` when the argument is
`undefined` (the default of the parameter). -/
def loadToken (s : AppState Num) (arg : JsVal Num) : JsVal Num :=
  match arg with
  | .undefined => s.auth.getOpt "token"
  | v => v

/-- The call `api('/reports', { token })` of `loadData`. -/
def fetchReports (E : Engine Num) (apiBase : String) (net : Request Num → Outcome Num)
    (token : JsVal Num) : List (Request Num) × Except JsError (JsVal Num) :=
  api E apiBase net "/reports" { token := token }

/-- The call `api('/reports/analytics', { token })` of `loadData`. -/
def fetchAnalytics (E : Engine Num) (apiBase : String) (net : Request Num → Outcome Num)
    (token : JsVal Num) : List (Request Num) × Except JsError (JsVal Num) :=
  api E apiBase net "/reports/analytics" { token := token }

/-- The function `loadData`. `arg` is the argument of the call. Returns the new state and the
requests issued. Both `api` calls are started before `Promise.all` is awaited. -/
def loadData (E : Engine Num) (apiBase : String) (net : Request Num → Outcome Num)
    (firstWins : Bool) (s : AppState Num) (arg : JsVal Num) :
    AppState Num × List (Request Num) :=
  let token := loadToken s arg
  if !token.truthy E then (s, [])
  else
    let r := fetchReports E apiBase net token
    let a := fetchAnalytics E apiBase net token
    match promiseAll firstWins r.2 a.2 with
    | .ok (rv, av) => ({ s with reports := rv, analytics := av }, r.1 ++ a.1)
    | .error err => ({ s with error := err.message }, r.1 ++ a.1)

/-- The result of running `setStatus`: the state afterwards, the requests issued, and the
rejection reason when the returned promise rejects (nothing handles that rejection). -/
structure SetStatusResult (Num : Type) where
  state : AppState Num
  requests : List (Request Num)
  rejection : Option JsError

/-- The request sent by `setStatus`. Reading `auth.token` and the two template literals may
throw. -/
def setStatusRequest (E : Engine Num) (apiBase : String) (s : AppState Num) (id : JsVal Num)
    (statusLabel : String) : Except JsError (Request Num) := do
  let idText ← id.toStr E
  let token ← s.auth.get E "token"
  let tokenText ← token.toStr E
  pure { method := "PATCH"
         url := apiBase ++ "/reports/" ++ idText ++ "/status"
         headers := [("Authorization", "Bearer " ++ tokenText)]
         body := .form [("status_label", statusLabel)] }

/-- The function `setStatus`: send the write, wait for `fetch` to settle, then `loadData()`.
The response of the write is not inspected. -/
def setStatus (E : Engine Num) (apiBase : String) (net : Request Num → Outcome Num)
    (firstWins : Bool) (s : AppState Num) (id : JsVal Num) (statusLabel : String) :
    SetStatusResult Num :=
  match setStatusRequest E apiBase s id statusLabel with
  | .error e => { state := s, requests := [], rejection := some e }
  | .ok req =>
    match net req with
    | .rejected e => { state := s, requests := [req], rejection := some e }
    | .response _ _ =>
      let l := loadData E apiBase net firstWins s .undefined
      { state := l.1, requests := req :: l.2, rejection := none }

/-! ## `App.jsx`: the severity pie cells -/

/-- The object literal `severityColors`, as the list of its own properties. -/
def severityColors : List (String × String) :=
  [("Low", "#2bb673"), ("Medium", "#f6a623"), ("Critical", "#e84a5f")]

/-- The property names every object literal inherits from `Object.prototype` in a browser.
Each of them reads as a function, except `__proto__`, which reads as the prototype object. -/
def objectPrototypeKeys : List String :=
  ["constructor", "hasOwnProperty", "isPrototypeOf", "propertyIsEnumerable", "toLocaleString",
   "toString", "valueOf", "__proto__", "__defineGetter__", "__defineSetter__",
   "__lookupGetter__", "__lookupSetter__"]

/-- A value read from `severityColors`, or the literal that replaces it. -/
inductive Fill where
  | color (s : String)
  | inherited (key : String)
  | undefined
deriving DecidableEq, Repr

/-- The property read `severityColors[key]`: an own property, else a property inherited from
`Object.prototype`, else `undefined`. -/
def severityColorsGet (key : String) : Fill :=
  match severityColors.lookup key with
  | some c => .color c
  | none => if objectPrototypeKeys.contains key then .inherited key else .undefined

/-- The `fill` of a cell: `severityColors[name] || '#999'`. Functions and objects are truthy,
a string is truthy when it is not empty. -/
def cellFill (name : String) : Fill :=
  match severityColorsGet name with
  | .color c => if c != "" then .color c else .color "#999"
  | .inherited k => .inherited k
  | .undefined => .color "#999"

/-- The fills of the cells rendered for `(analytics.severity_distribution || []).map(...)`.
The computed key `entry.name` is converted with `ToString`. -/
def severityCells (E : Engine Num) (analytics : JsVal Num) : Except JsError (List Fill) := do
  let series ← analytics.get E "severity_distribution"
  match JsVal.or E series (.arr []) with
  | .arr entries =>
    mapThrowing (fun entry => do
      let name ← entry.get E "name"
      let key ← name.toStr E
      pure (cellFill key)) entries
  | _ => throw (typeError E (.notAFunction "map"))

/-! ## `app.js`: the plan page -/

/-- The function `severityClass`. -/
def severityClass (E : Engine Num) (score : JsVal Num) : Except JsError String := do
  if (← score.geLit E 8) then pure "severity-high"
  else if (← score.geLit E 5) then pure "severity-medium"
  else pure "severity-low"

/-- The call `strings.join("")` on an array of strings: their concatenation. -/
def concatStrings : List String → String
  | [] => ""
  | s :: rest => s ++ concatStrings rest

/-- The list item returned by `listMarkup` for an empty list. -/
def emptyItem : String :=
  "<li class=\"empty-state\">No data available.</li>"

/-- The function `listMarkup`. The callback of `items.map` converts the value returned by
`formatter` with `ToString` inside its template literal; `join("")` then concatenates the
resulting strings. Only arrays have a callable `map`. -/
def listMarkup (E : Engine Num) (items : JsVal Num)
    (formatter : JsVal Num → Except JsError (JsVal Num)) : Except JsError String := do
  let len ← items.length E
  if !len.truthy E then pure emptyItem
  else
    match items with
    | .arr xs => do
      let lis ← mapThrowing (fun item => do
        let v ← formatter item
        let text ← v.toStr E
        pure ("<li>" ++ text ++ "</li>")) xs
      pure (concatStrings lis)
    | _ => throw (typeError E (.notAFunction "map"))

/-- The expression `v.join(", ") || "None"` used for `urgent_signals` and `risk_context`. -/
def joinOrNone (E : Engine Num) (v : JsVal Num) : Except JsError String := do
  let joined ← v.join E ", "
  pure (if joined != "" then joined else "None")

/-- The formatter passed to `listMarkup` for `result.recommendations`. -/
def recommendationFormatter (E : Engine Num) (rec : JsVal Num) :
    Except JsError (JsVal Num) := do
  let unit ← (← rec.get E "unit_id").toStr E
  let suitability ← (← rec.get E "suitability").toStr E
  let eta ← (← rec.get E "eta_minutes").toStr E
  let distance ← (← rec.get E "distance_km").toStr E
  pure (.str ("<strong>" ++ unit ++ "</strong> • Suitability " ++ suitability ++ " • ETA "
    ++ eta ++ " min • " ++ distance ++ " km"))

/-- The formatter passed to `listMarkup` for `result.actions`: the identity. -/
def actionFormatter (step : JsVal Num) : Except JsError (JsVal Num) :=
  pure step

/-- The template literal assigned to `triageCard.innerHTML`, its substitutions evaluated from
left to right. -/
def triageMarkup (E : Engine Num) (result : JsVal Num) : Except JsError String := do
  let incidentType ← (← (← result.get E "triage").get E "incident_type").toStr E
  let cls ← severityClass E (← (← result.get E "triage").get E "severity_score")
  let score ← (← (← result.get E "triage").get E "severity_score").toStr E
  let signals ← joinOrNone E (← (← result.get E "triage").get E "urgent_signals")
  let risk ← joinOrNone E (← result.get E "risk_context")
  pure ("\n      <div class=\"metric\">\n"
    ++ "        <span class=\"metric-label\">Incident type</span>\n"
    ++ "        <span class=\"metric-value\">" ++ incidentType ++ "</span>\n"
    ++ "      </div>\n"
    ++ "      <div class=\"metric\">\n"
    ++ "        <span class=\"metric-label\">Severity</span>\n"
    ++ "        <span class=\"metric-value severity-pill " ++ cls ++ "\">" ++ score
    ++ "/10</span>\n"
    ++ "      </div>\n"
    ++ "      <div class=\"metric\">\n"
    ++ "        <span class=\"metric-label\">Urgent signals</span>\n"
    ++ "        <span class=\"metric-value\">" ++ signals ++ "</span>\n"
    ++ "      </div>\n"
    ++ "      <div class=\"metric\">\n"
    ++ "        <span class=\"metric-label\">Risk context</span>\n"
    ++ "        <span class=\"metric-value\">" ++ risk ++ "</span>\n"
    ++ "      </div>\n"
    ++ "    ")

/-- What an element shows: markup assigned to `innerHTML`, or text assigned to
`textContent`. -/
inductive Content where
  | html (markup : String)
  | text (s : String)
deriving DecidableEq, Repr

/-- The parts of an output element the handler touches: whether its class list contains
`empty-state`, and its content. -/
structure Panel where
  emptyState : Bool
  content : Content
deriving DecidableEq, Repr

/-- The parts of the page the submit handler reads or writes. -/
structure Page where
  submitDisabled : Bool
  submitText : String
  incidentText : String
  latitude : String
  longitude : String
  triageCard : Panel
  recommendations : Panel
  actions : Panel
deriving DecidableEq, Repr

/-- The handler up to `await fetch`: the button is disabled and relabelled, the payload is
read from the inputs, and the request is issued. -/
def submitStart (E : Engine Num) (p : Page) : Page × Request Num :=
  let p1 := { p with submitDisabled := true, submitText := "Analyzing..." }
  let payload : JsVal Num := .obj
    [("incident_text", .str p1.incidentText),
     ("latitude", .num (E.stringToNumber p1.latitude)),
     ("longitude", .num (E.stringToNumber p1.longitude))]
  (p1, { method := "POST"
         url := "/api/plan"
         headers := [("Content-Type", "application/json")]
         body := .json payload })

/-- The `try` block after `fetch` has settled: the page as the block leaves it, and the error
it threw, if any. Statements before a throwing statement keep their effect. -/
def tryBlock (E : Engine Num) (p : Page) (o : Outcome Num) : Page × Option JsError :=
  match o with
  | .rejected e => (p, some e)
  | .response status json =>
    match json with
    | .error e => (p, some e)
    | .ok result =>
      let check : Except JsError Unit :=
        if !isOk status then do
          let error ← result.get E "error"
          let message ← (JsVal.or E error (.str "Could not process request")).toStr E
          throw (mkError message)
        else pure ()
      match check with
      | .error e => (p, some e)
      | .ok _ =>
        let p1 := { p with triageCard := { p.triageCard with emptyState := false } }
        match triageMarkup E result with
        | .error e => (p1, some e)
        | .ok markup =>
          let p2 := { p1 with triageCard := { p1.triageCard with content := .html markup } }
          let p3 := { p2 with recommendations := { p2.recommendations with emptyState := false } }
          match (do listMarkup E (← result.get E "recommendations")
                      (recommendationFormatter E)) with
          | .error e => (p3, some e)
          | .ok recs =>
            let p4 := { p3 with
              recommendations := { p3.recommendations with content := .html recs } }
            let p5 := { p4 with actions := { p4.actions with emptyState := false } }
            match (do listMarkup E (← result.get E "actions") actionFormatter) with
            | .error e => (p5, some e)
            | .ok acts =>
              ({ p5 with actions := { p5.actions with content := .html acts } }, none)

/-- The `catch` block. -/
def catchBlock (p : Page) (err : JsError) : Page :=
  { p with triageCard := { emptyState := true, content := .text ("Error: " ++ err.message) } }

/-- The `finally` block. -/
def finallyBlock (p : Page) : Page :=
  { p with submitDisabled := false, submitText := "Generate AI Response Plan" }

/-- The handler from the moment `fetch` settles to its end: `try`, `catch`, `finally`. -/
def submitFinish (E : Engine Num) (p : Page) (o : Outcome Num) : Page :=
  match tryBlock E p o with
  | (p1, none) => finallyBlock p1
  | (p1, some err) => finallyBlock (catchBlock p1 err)

/-- The whole submit handler, given the outcome of the request it issues. -/
def submitHandler (E : Engine Num) (net : Request Num → Outcome Num) (p : Page) : Page :=
  let started := submitStart E p
  submitFinish E started.1 (net started.2)

/-! ## A concrete engine for evaluating examples -/

/-- Decimal digits of a natural number as a string to number conversion would read them. -/
def readNat (s : String) : Option Nat :=
  if s.isEmpty then some 0 else s.toNat?

/-- An engine whose numbers are the integers together with `NaN` (`none`). It agrees with a
browser on integer values; its `TypeError` messages are those of V8. Only used to evaluate
the model on concrete inputs. -/
def intEngine : Engine (Option Int) where
  numToString := fun n => match n with
    | some i => toString i
    | none => "NaN"
  numTruthy := fun n => match n with
    | some i => decide (i ≠ 0)
    | none => false
  numGe := fun n k => match n with
    | some i => decide ((k : Int) ≤ i)
    | none => false
  stringToNumber := fun s => (readNat s).map Int.ofNat
  ofNat := fun n => some (Int.ofNat n)
  nan := none
  typeErrorMessage := fun k => match k with
    | .readOfUndefined key => "Cannot read properties of undefined (reading '" ++ key ++ "')"
    | .readOfNull key => "Cannot read properties of null (reading '" ++ key ++ "')"
    | .notAFunction key => key ++ " is not a function"
    | .toPrimitive => "Cannot convert object to primitive value"
  truthy_ofNat := by
    intro n
    cases n with
    | zero => rfl
    | succ m => simp; omega

/-! ## Specification-side definitions and fixtures -/

/-- The pass condition of the Filter Engine in the words of the specification: each set field
must match; severity and status by equality, the emergency type by containment of the
lower-cased filter text in the lower-cased field. -/
def SpecPasses (toLowerCase : String → String) (f : Filters) (r : Report) : Prop :=
  (f.severity = "" ∨ r.severity_label = f.severity)
    ∧ (f.status = "" ∨ r.status = f.status)
    ∧ (f.emergency_type = ""
        ∨ (toLowerCase f.emergency_type).toList <:+: (toLowerCase r.emergency_type).toList)

instance (toLowerCase : String → String) (f : Filters) (r : Report) :
    Decidable (SpecPasses toLowerCase f r) := by
  unfold SpecPasses
  exact inferInstance

/-- A report with the given id, emergency type, severity label and status. -/
def sampleReport (id : Nat) (emergencyType severity status : String) : Report :=
  { id := id
    created_at := "2024-05-01T10:00:00"
    reporter_email := "citizen@slsu.local"
    emergency_type := emergencyType
    description := ""
    latitude := 0
    longitude := 0
    severity_label := severity
    severity_confidence := 0
    verification_score := 0
    suspicious := false
    status := status
    selfie_url := ""
    accident_url := "" }

/-- Ten reports: three Critical, four in Pending or Needs Review, two Resolved. -/
def fixture10 : List Report :=
  [ sampleReport 1 "Fire" "Critical" "Pending"
  , sampleReport 2 "Flood" "Critical" "Needs Review"
  , sampleReport 3 "Medical" "Critical" "Resolved"
  , sampleReport 4 "Fire" "Low" "Pending"
  , sampleReport 5 "Road Accident" "Medium" "Needs Review"
  , sampleReport 6 "Fire" "Low" "Resolved"
  , sampleReport 7 "Flood" "Medium" "Verified"
  , sampleReport 8 "Medical" "Low" "Dispatched"
  , sampleReport 9 "Fire" "Medium" "Rejected"
  , sampleReport 10 "Flood" "Low" "Verified" ]

/-- Lower-casing of the ASCII letters, standing in for `toLowerCase` in examples. -/
def asciiLower (s : String) : String :=
  String.mk (s.toList.map Char.toLower)

/-- An error body of the server with a numeric `detail` and a textual `error`. -/
def bodyDetailNumber : JsVal (Option Int) :=
  .obj [("detail", .num (some 404)), ("error", .str "Not found")]

/-- An error body in the shape of a request-validation failure: `detail` is a list of
objects. -/
def bodyDetailList : JsVal (Option Int) :=
  .obj [("detail", .arr [.obj [("msg", .str "field required")]])]

/-- An error body with a textual `detail`. -/
def bodyDetailText : JsVal (Option Int) :=
  .obj [("detail", .str "Report not found")]

/-- An error body with an empty `detail` and a textual `error`. -/
def bodyErrorText : JsVal (Option Int) :=
  .obj [("detail", .str ""), ("error", .str "Could not load")]

/-- An error body without `detail` whose `error` is a number. -/
def bodyErrorNumber : JsVal (Option Int) :=
  .obj [("error", .num (some 503))]

/-- The error with which `res.json()` rejects on an empty body. -/
def emptyBodyError : JsError :=
  { name := "SyntaxError", message := "Unexpected end of JSON input" }

/-- An error body with neither property. -/
def bodyEmpty : JsVal (Option Int) :=
  .obj []

/-- A report object as the server sends it, reduced to three properties. -/
def reportJson (id : Int) (status : String) : JsVal (Option Int) :=
  .obj [("id", .num (some id)), ("severity_label", .str "Critical"), ("status", .str status)]

/-- An analytics object whose severity distribution has one category of the given name. -/
def analyticsJson (category : String) (count : Int) : JsVal (Option Int) :=
  .obj [("reports_per_type", .arr []),
    ("severity_distribution", .arr [.obj [("name", .str category), ("value", .num (some count))]]),
    ("reports_over_time", .arr []), ("flagged_users", .arr [])]

/-- A logged-in dashboard holding one pending report. -/
def sampleState : AppState (Option Int) :=
  { auth := .obj [("token", .str "t0")]
    reports := .arr [reportJson 7 "Pending"]
    analytics := analyticsJson "Critical" 1
    selected := reportJson 7 "Pending"
    filters := initialFilters
    error := "" }

/-- A server that rejects the status write with 404 and answers both reads. -/
def rejectingServer (r : Request (Option Int)) : Outcome (Option Int) :=
  if r.method == "PATCH" then .response 404 (.ok bodyDetailText)
  else if r.url == "http://localhost:8000/reports" then
    .response 200 (.ok (.arr [reportJson 7 "Pending", reportJson 8 "Pending"]))
  else .response 200 (.ok (analyticsJson "Critical" 2))

/-- A server that answers the report list and fails the analytics read with status 500. -/
def analyticsDownServer (r : Request (Option Int)) : Outcome (Option Int) :=
  if r.url == "http://localhost:8000/reports" then
    .response 200 (.ok (.arr [reportJson 7 "Pending", reportJson 8 "Pending"]))
  else .response 500 (.ok (.obj [("detail", .str "analytics unavailable")]))

/-- A server that answers every request with the given status and the same error body. -/
def failingServer (status : Nat) (_ : Request (Option Int)) : Outcome (Option Int) :=
  .response status (.ok (.obj [("detail", .str "Could not validate credentials")]))

/-- A page before submission, showing the placeholders of the static page. -/
def samplePage : Page :=
  { submitDisabled := false
    submitText := "Generate AI Response Plan"
    incidentText := "Smoke from a warehouse roof"
    latitude := "14"
    longitude := "121"
    triageCard := { emptyState := true, content := .text "No plan yet." }
    recommendations := { emptyState := true, content := .text "" }
    actions := { emptyState := true, content := .text "" } }

/-- A plan payload with empty `urgent_signals`, `risk_context` and `recommendations` and two
actions. -/
def samplePlan : JsVal (Option Int) :=
  .obj [("triage", .obj [("incident_type", .str "fire"), ("severity_score", .num (some 8)),
      ("urgent_signals", .arr [])]),
    ("risk_context", .arr []),
    ("recommendations", .arr []),
    ("actions", .arr [.str "Evacuate the block", .str "Dispatch engine 4"])]

/-- The text of a string value, used to describe the identity formatter on strings. -/
def textOf : JsVal (Option Int) → String
  | .str s => s
  | _ => ""

/-! ## Theorems: strings -/

theorem startsWithChars_iff (hay needle : List Char) :
    startsWithChars hay needle = true ↔ needle <+: hay := by
  induction hay generalizing needle with
  | nil =>
    cases needle with
    | nil => simp [startsWithChars]
    | cons n ns => simp [startsWithChars]
  | cons h hs ih =>
    cases needle with
    | nil => simp [startsWithChars]
    | cons n ns =>
      simp only [startsWithChars, Bool.and_eq_true, beq_iff_eq, ih, List.cons_prefix_cons]
      constructor
      · rintro ⟨h1, h2⟩
        exact ⟨h1.symm, h2⟩
      · rintro ⟨h1, h2⟩
        exact ⟨h1.symm, h2⟩

theorem includesChars_iff (hay needle : List Char) :
    includesChars hay needle = true ↔ needle <:+: hay := by
  induction hay with
  | nil =>
    simp only [includesChars, startsWithChars_iff, List.prefix_nil, List.infix_nil]
  | cons h hs ih =>
    simp only [includesChars, Bool.or_eq_true, startsWithChars_iff, ih, List.infix_cons_iff]

theorem includes_iff (s search : String) :
    includes s search = true ↔ search.toList <:+: s.toList := by
  unfold includes
  exact includesChars_iff _ _

/-! ## Theorems: the report table and the counters -/

theorem filterCallback_iff (toLowerCase : String → String) (f : Filters) (r : Report) :
    filterCallback toLowerCase f r = true ↔ SpecPasses toLowerCase f r := by
  simp only [filterCallback, SpecPasses, Bool.and_eq_true, Bool.or_eq_true, Bool.not_eq_true',
    bne_eq_false_iff_eq, beq_iff_eq, includes_iff]
  tauto

theorem filterCallback_eq_decide (toLowerCase : String → String) (f : Filters) :
    filterCallback toLowerCase f = fun r => decide (SpecPasses toLowerCase f r) := by
  funext r
  rw [Bool.eq_iff_iff]
  simp [filterCallback_iff]

/-- C1. For every report list `R` and every filter state, `filtered` is exactly the list of
the records of `R` that satisfy the specification's pass condition, in the order of `R`: it
equals `R.filter` of that condition, it is a sublist of `R`, and a record is in it iff it is in
`R` and passes. When all three fields are set, a record of `R` is in the output iff it
satisfies the three predicates. `R` is an immutable value, so it is unchanged. -/
theorem filtered_is_conjunctive_subsequence (toLowerCase : String → String) (R : List Report)
    (f : Filters) :
    filtered toLowerCase R f = R.filter (fun r => decide (SpecPasses toLowerCase f r))
      ∧ (filtered toLowerCase R f).Sublist R
      ∧ (∀ r, r ∈ filtered toLowerCase R f ↔ r ∈ R ∧ SpecPasses toLowerCase f r)
      ∧ (f.severity ≠ "" → f.status ≠ "" → f.emergency_type ≠ "" →
          ∀ r, r ∈ filtered toLowerCase R f ↔
            r ∈ R ∧ r.severity_label = f.severity ∧ r.status = f.status
              ∧ (toLowerCase f.emergency_type).toList
                  <:+: (toLowerCase r.emergency_type).toList) := by
  have hmem : ∀ r, r ∈ filtered toLowerCase R f ↔ r ∈ R ∧ SpecPasses toLowerCase f r := by
    intro r
    simp [filtered, List.mem_filter, filterCallback_iff]
  refine ⟨?_, ?_, hmem, ?_⟩
  · simp [filtered, filterCallback_eq_decide]
  · exact List.filter_sublist R
  · intro h1 h2 h3 r
    rw [hmem]
    simp [SpecPasses, h1, h2, h3]

/-- C5. With the three filter fields empty (the initial filter state) `filtered` returns the
report list itself, same records in the same order. -/
theorem filtered_identity (toLowerCase : String → String) (R : List Report) :
    filtered toLowerCase R initialFilters = R
      ∧ filtered toLowerCase R { severity := "", status := "", emergency_type := "" } = R := by
  have h : filterCallback toLowerCase initialFilters = fun _ => true := by
    funext r
    simp [filterCallback, initialFilters]
  have h2 : filtered toLowerCase R initialFilters = R := by
    simp [filtered, h]
  exact ⟨h2, h2⟩

/-- C2. For every report list `R`, `metrics` returns `total` = length of `R`, `critical` = the
number of records labelled Critical, `pending` = the number of records whose status is Pending
or Needs Review, `resolved` = the number of records whose status is Resolved; the counters
of a render do not depend on the filter state; and a list of ten records with three
Critical, four Pending or Needs Review and two Resolved yields 10, 3, 4, 2. -/
theorem metrics_exact (toLowerCase : String → String) (R : List Report) :
    metrics R =
        { total := R.length
          critical := R.countP (fun r => decide (r.severity_label = "Critical"))
          pending := R.countP
            (fun r => decide (r.status = "Pending" ∨ r.status = "Needs Review"))
          resolved := R.countP (fun r => decide (r.status = "Resolved")) }
      ∧ (∀ f g : Filters, (derive toLowerCase R f).metrics = (derive toLowerCase R g).metrics)
      ∧ (∀ f : Filters, (derive toLowerCase R f).metrics = metrics R)
      ∧ (R.length = 10 →
          R.countP (fun r => decide (r.severity_label = "Critical")) = 3 →
          R.countP (fun r => decide (r.status = "Pending" ∨ r.status = "Needs Review")) = 4 →
          R.countP (fun r => decide (r.status = "Resolved")) = 2 →
          metrics R = { total := 10, critical := 3, pending := 4, resolved := 2 }) := by
  have h : metrics R =
        { total := R.length
          critical := R.countP (fun r => decide (r.severity_label = "Critical"))
          pending := R.countP
            (fun r => decide (r.status = "Pending" ∨ r.status = "Needs Review"))
          resolved := R.countP (fun r => decide (r.status = "Resolved")) } := by
    have e1 : (fun r : Report => r.severity_label == "Critical")
        = fun r => decide (r.severity_label = "Critical") := rfl
    have e2 : (fun r : Report => ["Pending", "Needs Review"].contains r.status)
        = fun r => decide (r.status = "Pending" ∨ r.status = "Needs Review") := by
      funext r
      simp
    have e3 : (fun r : Report => r.status == "Resolved")
        = fun r => decide (r.status = "Resolved") := rfl
    simp only [metrics, List.countP_eq_length_filter, e1, e2, e3]
  refine ⟨h, fun _ _ => rfl, fun _ => rfl, ?_⟩
  intro h1 h2 h3 h4
  rw [h, h1, h2, h3, h4]

/-- C2, evaluated on the ten-record fixture. -/
theorem metrics_exact_fixture :
    fixture10.length = 10
      ∧ metrics fixture10 = { total := 10, critical := 3, pending := 4, resolved := 2 } :=
  ⟨by decide, (metrics_exact asciiLower fixture10).2.2.2 (by decide) (by decide) (by decide)
    (by decide)⟩

/-- C1, at the fixture with all three filter fields set: report 10 (a Low, Verified flood
report) is in the output, matched without regard to letter case. -/
theorem filtered_conjunction_witness :
    sampleReport 10 "Flood" "Low" "Verified"
      ∈ filtered asciiLower fixture10
          { severity := "Low", status := "Verified", emergency_type := "FLO" } :=
  ((filtered_is_conjunctive_subsequence asciiLower fixture10
      { severity := "Low", status := "Verified", emergency_type := "FLO" }).2.2.2
    (by decide) (by decide) (by decide) (sampleReport 10 "Flood" "Low" "Verified")).mpr
    ⟨by decide, rfl, rfl, by decide⟩

/-- The whole output of the filter on the fixture for the same filter state. -/
theorem filtered_fixture :
    filtered asciiLower fixture10
        { severity := "Low", status := "Verified", emergency_type := "FLO" }
      = [sampleReport 10 "Flood" "Low" "Verified"] := by
  decide

/-! ## Theorems: the severity pie cells -/

theorem cellFill_fixed :
    cellFill "Low" = .color "#2bb673" ∧ cellFill "Medium" = .color "#f6a623"
      ∧ cellFill "Critical" = .color "#e84a5f" ∧ cellFill "Unknown" = .color "#999" := by
  decide

theorem cellFill_fallback (n : String) (hLow : n ≠ "Low") (hMedium : n ≠ "Medium")
    (hCritical : n ≠ "Critical") (hProto : n ∉ objectPrototypeKeys) :
    cellFill n = .color "#999" := by
  have e1 : (n == "Low") = false := by simpa using hLow
  have e2 : (n == "Medium") = false := by simpa using hMedium
  have e3 : (n == "Critical") = false := by simpa using hCritical
  have h : severityColors.lookup n = none := by
    simp [severityColors, List.lookup, e1, e2, e3]
  simp [cellFill, severityColorsGet, h, hProto]

theorem cellFill_inherited (n : String) (hProto : n ∈ objectPrototypeKeys) :
    cellFill n = .inherited n := by
  have h : severityColors.lookup n = none := by
    have hp := hProto
    simp only [objectPrototypeKeys, List.mem_cons, List.mem_singleton, List.not_mem_nil,
      or_false] at hp
    rcases hp with h | h | h | h | h | h | h | h | h | h | h | h <;> subst h <;> decide
  simp [cellFill, severityColorsGet, h, hProto]

theorem severityCells_absent (E : Engine Num) (fields : List (String × JsVal Num))
    (h : JsVal.lookup "severity_distribution" fields = .undefined) :
    severityCells E (.obj fields) = .ok [] := by
  simp [severityCells, JsVal.get, h, JsVal.or, JsVal.truthy, mapThrowing, bind, Except.bind]

/-- C6, at the failing input. A severity category named `constructor` is not one of the three
fixed labels, yet its cell is not filled with the neutral colour: the read
`severityColors["constructor"]` finds the function inherited from `Object.prototype`, which is
truthy, so the fallback of the `||` is not taken. -/
theorem cellFill_constructor_not_neutral :
    cellFill "constructor" = .inherited "constructor"
      ∧ cellFill "constructor" ≠ .color "#999"
      ∧ severityCells intEngine (analyticsJson "constructor" 1)
          = .ok [.inherited "constructor"] :=
  ⟨by decide, by decide, rfl⟩

/-! ## Theorems: `api` -/

theorem apiResume_ok_status (E : Engine Num) (status : Nat) (data : JsVal Num)
    (h : isOk status = true) :
    apiResume E (.response status (.ok data)) = .ok data := by
  simp [apiResume, h, bind, Except.bind, pure, Except.pure]

theorem apiResume_bad_status (E : Engine Num) (status : Nat) (json : Except JsError (JsVal Num))
    (h : isOk status = false) :
    ∃ e, apiResume E (.response status json) = .error e := by
  cases json with
  | error e => exact ⟨e, by simp [apiResume, bind, Except.bind]⟩
  | ok data =>
    simp only [apiResume, h, bind, Except.bind, pure, Except.pure, throw, throwThe,
      MonadExceptOf.throw]
    cases hd : data.get E "detail" with
    | error e => exact ⟨e, by simp⟩
    | ok detail =>
      by_cases ht : detail.truthy E = true
      · cases hs : detail.toStr E with
        | error e => exact ⟨e, by simp [ht, hs]⟩
        | ok m => exact ⟨mkError m, by simp [ht, hs]⟩
      · cases he : data.get E "error" with
        | error e => exact ⟨e, by simp [ht, he]⟩
        | ok error =>
          cases hs : (if error.truthy E = true then error else JsVal.str "API error").toStr E with
          | error e => exact ⟨e, by simp [ht, he, hs]⟩
          | ok m => exact ⟨mkError m, by simp [ht, he, hs]⟩

theorem apiResume_status_blind (E : Engine Num) (s1 s2 : Nat)
    (json : Except JsError (JsVal Num)) (h1 : isOk s1 = false) (h2 : isOk s2 = false) :
    apiResume E (.response s1 json) = apiResume E (.response s2 json) := by
  simp [apiResume, h1, h2]

/-- C7, counterexamples to the claim as stated. With status 404 and the body
`{"detail": 404, "error": "Not found"}`, which carries the readable `error` string
`Not found`, `api` fails with the message `404`, not with that string. With status 422 and
the body `{"detail": [{"msg": "field required"}]}`, which carries neither a `detail` string nor
an `error` string, `api` fails with the message `[object Object]`, not with `API error`. With
the success status 200 and a body that `res.json()` cannot parse, `api` fails although the
status is a success. -/
theorem api_message_counterexample :
    (isOk 404 = false
        ∧ bodyDetailNumber.get intEngine "error" = .ok (.str "Not found")
        ∧ apiResume intEngine (.response 404 (.ok bodyDetailNumber)) = .error (mkError "404")
        ∧ mkError "404" ≠ mkError "Not found")
      ∧ (isOk 422 = false
        ∧ apiResume intEngine (.response 422 (.ok bodyDetailList))
            = .error (mkError "[object Object]")
        ∧ mkError "[object Object]" ≠ mkError "API error")
      ∧ (isOk 200 = true
        ∧ apiResume intEngine (.response 200 (.error emptyBodyError))
            = .error emptyBodyError) :=
  ⟨⟨by decide, rfl, rfl, by decide⟩, ⟨by decide, rfl, by decide⟩, ⟨by decide, rfl⟩⟩

/-- C7, amended. For a response with a parsed JSON body `data`: on a non-success status,
(1) if `detail` is a non-empty string, `api` fails with exactly that string as message;
(2) if `detail` is absent or falsy and `error` is a non-empty string, it fails with exactly
that string; (3) if `detail` and `error` are both absent or falsy (the empty string included),
it fails with the message `API error`; (4) `api` returns a value iff the status is a
success, and the value is then the parsed body; (5) on a non-success status a truthy
`detail` of any type is used in its string conversion, when that conversion does not throw;
(6) likewise a truthy `error` of any type when `detail` is absent or falsy. Over every outcome
of the request, (7) `api` returns a value iff a response arrived, its status is a success and
its body parsed as JSON, and the value is then the parsed body; in particular it fails, with
the error of the parse, on a body that does not parse, whatever the status, and with the
error of `fetch` when no response arrives. -/
theorem api_error_message (E : Engine Num) (status : Nat) (data : JsVal Num) :
    (isOk status = false → ∀ s, data.get E "detail" = .ok (.str s) → s ≠ "" →
        apiResume E (.response status (.ok data)) = .error (mkError s))
      ∧ (isOk status = false → ∀ d s, data.get E "detail" = .ok d → d.truthy E = false →
          data.get E "error" = .ok (.str s) → s ≠ "" →
          apiResume E (.response status (.ok data)) = .error (mkError s))
      ∧ (isOk status = false → ∀ d e, data.get E "detail" = .ok d → d.truthy E = false →
          data.get E "error" = .ok e → e.truthy E = false →
          apiResume E (.response status (.ok data)) = .error (mkError "API error"))
      ∧ (apiResume E (.response status (.ok data)) = .ok data ↔ isOk status = true)
      ∧ (∀ v, apiResume E (.response status (.ok data)) = .ok v →
          v = data ∧ isOk status = true)
      ∧ (isOk status = false → ∀ d m, data.get E "detail" = .ok d → d.truthy E = true →
          d.toStr E = .ok m →
          apiResume E (.response status (.ok data)) = .error (mkError m))
      ∧ (isOk status = false → ∀ d e m, data.get E "detail" = .ok d → d.truthy E = false →
          data.get E "error" = .ok e → e.truthy E = true → e.toStr E = .ok m →
          apiResume E (.response status (.ok data)) = .error (mkError m))
      ∧ (∀ (o : Outcome Num) (v : JsVal Num),
          apiResume E o = .ok v ↔ ∃ st, o = .response st (.ok v) ∧ isOk st = true)
      ∧ (∀ st e, apiResume E (.response st (.error e)) = .error e)
      ∧ (∀ e, apiResume E (.rejected e) = .error e) := by
  have hbad : isOk status = false → ∀ v, apiResume E (.response status (.ok data)) ≠ .ok v := by
    intro h v hv
    obtain ⟨e, he⟩ := apiResume_bad_status E status (.ok data) h
    rw [he] at hv
    cases hv
  refine ⟨?_, ?_, ?_, ?_, ?_, ?_, ?_, ?_, ?_, ?_⟩
  rotate_right 5
  · intro h d m hd ht hm
    simp [apiResume, h, hd, ht, hm, bind, Except.bind, pure, Except.pure, throw, throwThe,
      MonadExceptOf.throw]
  · intro h d e m hd ht he het hm
    simp [apiResume, h, hd, ht, he, het, hm, bind, Except.bind, pure, Except.pure, throw,
      throwThe, MonadExceptOf.throw]
  · intro o v
    constructor
    · intro hv
      cases o with
      | rejected e => simp [apiResume] at hv
      | response st json =>
        cases json with
        | error e => simp [apiResume, bind, Except.bind] at hv
        | ok body =>
          by_cases hst : isOk st = true
          · rw [apiResume_ok_status E st body hst] at hv
            cases hv
            exact ⟨st, rfl, hst⟩
          · obtain ⟨e, he⟩ := apiResume_bad_status E st (.ok body) (by simpa using hst)
            rw [he] at hv
            cases hv
    · rintro ⟨st, rfl, hst⟩
      exact apiResume_ok_status E st v hst
  · intro st e
    simp [apiResume, bind, Except.bind]
  · intro e
    rfl
  · intro h s hd hs
    have hst : (JsVal.str s).truthy E = true := by simp [JsVal.truthy, hs]
    simp [apiResume, h, hd, hst, JsVal.toStr, bind, Except.bind, pure,
      Except.pure, throw, throwThe, MonadExceptOf.throw]
  · intro h d s hd ht he hs
    have hst : (JsVal.str s).truthy E = true := by simp [JsVal.truthy, hs]
    simp [apiResume, h, hd, ht, he, hst, JsVal.toStr, bind, Except.bind, pure,
      Except.pure, throw, throwThe, MonadExceptOf.throw]
  · intro h d e hd ht he hf
    simp [apiResume, h, hd, ht, he, hf, JsVal.toStr, bind, Except.bind, pure,
      Except.pure, throw, throwThe, MonadExceptOf.throw]
  · constructor
    · intro h
      by_contra hno
      exact hbad (by simpa using hno) data h
    · intro h
      exact apiResume_ok_status E status data h
  · intro v hv
    by_cases h : isOk status = true
    · rw [apiResume_ok_status E status data h] at hv
      cases hv
      exact ⟨rfl, h⟩
    · exact absurd hv (hbad (by simpa using h) v)

/-- C7, amended, at concrete responses: a textual `detail`, an empty `detail` with a textual
`error`, a body with neither, a success, a numeric `error` without `detail`, a success
status with an unparsable body, and a success through the characterisation over all
outcomes. -/
theorem api_error_message_examples :
    apiResume intEngine (.response 404 (.ok bodyDetailText))
        = .error (mkError "Report not found")
      ∧ apiResume intEngine (.response 500 (.ok bodyErrorText))
        = .error (mkError "Could not load")
      ∧ apiResume intEngine (.response 500 (.ok bodyEmpty)) = .error (mkError "API error")
      ∧ apiResume intEngine (.response 200 (.ok bodyEmpty)) = .ok bodyEmpty
      ∧ apiResume intEngine (.response 503 (.ok bodyErrorNumber)) = .error (mkError "503")
      ∧ apiResume intEngine (.response 200 (.error emptyBodyError)) = .error emptyBodyError
      ∧ apiResume intEngine (.response 201 (.ok bodyDetailText)) = .ok bodyDetailText :=
  ⟨(api_error_message intEngine 404 bodyDetailText).1 (by decide) "Report not found" rfl
      (by decide),
    (api_error_message intEngine 500 bodyErrorText).2.1 (by decide) (.str "") "Could not load"
      rfl rfl rfl (by decide),
    (api_error_message intEngine 500 bodyEmpty).2.2.1 (by decide) .undefined .undefined
      rfl rfl rfl rfl,
    (api_error_message intEngine 200 bodyEmpty).2.2.2.1.mpr (by decide),
    (api_error_message intEngine 503 bodyErrorNumber).2.2.2.2.2.2.1 (by decide) .undefined
      (.num (some 503)) "503" rfl rfl rfl rfl rfl,
    (api_error_message intEngine 200 bodyEmpty).2.2.2.2.2.2.2.2.1 200 emptyBodyError,
    ((api_error_message intEngine 201 bodyEmpty).2.2.2.2.2.2.2.1
      (.response 201 (.ok bodyDetailText)) bodyDetailText).mpr ⟨201, rfl, by decide⟩⟩

/-! ## Theorems: `loadData` -/

theorem api_congr (E : Engine Num) (apiBase : String) (net1 net2 : Request Num → Outcome Num)
    (path : String) (opts : ApiOptions Num)
    (h : ∀ req, apiResume E (net1 req) = apiResume E (net2 req)) :
    api E apiBase net1 path opts = api E apiBase net2 path opts := by
  unfold api
  cases apiRequest E apiBase path opts with
  | error e => rfl
  | ok req => simp [h req]

theorem loadData_congr (E : Engine Num) (apiBase : String)
    (net1 net2 : Request Num → Outcome Num) (firstWins : Bool) (s : AppState Num)
    (arg : JsVal Num) (h : ∀ req, apiResume E (net1 req) = apiResume E (net2 req)) :
    loadData E apiBase net1 firstWins s arg = loadData E apiBase net2 firstWins s arg := by
  simp only [loadData, fetchReports, fetchAnalytics, api_congr E apiBase net1 net2 _ _ h]

theorem loadData_auth (E : Engine Num) (apiBase : String) (net : Request Num → Outcome Num)
    (firstWins : Bool) (s : AppState Num) (arg : JsVal Num) :
    (loadData E apiBase net firstWins s arg).1.auth = s.auth := by
  unfold loadData
  simp only []
  split
  · rfl
  · split <;> rfl

/-- C8, counterexample to the claim as stated. The server answers every request with the same
error body, once with status 401 (unauthorized) and once with status 500. `api` fails with the
same error in both cases and `loadData` ends in the same state: the message is stored in
`error` and the credential in `auth` is kept, so the caller cannot tell the two apart. -/
theorem unauthorized_not_distinguished :
    isOk 401 = false ∧ isOk 500 = false
      ∧ apiResume intEngine (failingServer 401 ⟨"GET", "http://localhost:8000/reports", [], .none⟩)
          = apiResume intEngine
              (failingServer 500 ⟨"GET", "http://localhost:8000/reports", [], .none⟩)
      ∧ loadData intEngine "http://localhost:8000" (failingServer 401) true sampleState .undefined
          = loadData intEngine "http://localhost:8000" (failingServer 500) true sampleState
              .undefined
      ∧ (loadData intEngine "http://localhost:8000" (failingServer 401) true sampleState
          .undefined).1.auth = sampleState.auth
      ∧ (loadData intEngine "http://localhost:8000" (failingServer 401) true sampleState
          .undefined).1.error = "Could not validate credentials" :=
  ⟨by decide, by decide, rfl, rfl, rfl, rfl⟩

/-- C8, amended. Loading does not distinguish an unauthorized response from other failures:
if two servers differ only in the status codes of their non-success responses, `loadData`
gives the same state and issues the same requests against both; and `loadData` never changes
the credential held in `auth`. -/
theorem load_failure_is_status_blind (E : Engine Num) (apiBase : String)
    (net1 net2 : Request Num → Outcome Num) (firstWins : Bool) (s : AppState Num)
    (arg : JsVal Num)
    (h : ∀ req, net1 req = net2 req ∨ ∃ s1 s2 json, isOk s1 = false ∧ isOk s2 = false
      ∧ net1 req = .response s1 json ∧ net2 req = .response s2 json) :
    loadData E apiBase net1 firstWins s arg = loadData E apiBase net2 firstWins s arg
      ∧ (loadData E apiBase net1 firstWins s arg).1.auth = s.auth := by
  refine ⟨loadData_congr E apiBase net1 net2 firstWins s arg ?_, loadData_auth _ _ _ _ _ _⟩
  intro req
  rcases h req with h | ⟨s1, s2, json, h1, h2, e1, e2⟩
  · rw [h]
  · rw [e1, e2]
    exact apiResume_status_blind E s1 s2 json h1 h2

/-- C8, amended, at the servers answering 401 and 500 with the same body. -/
theorem load_failure_is_status_blind_witness :
    loadData intEngine "http://localhost:8000" (failingServer 401) true sampleState .undefined
        = loadData intEngine "http://localhost:8000" (failingServer 500) true sampleState
            .undefined
      ∧ (loadData intEngine "http://localhost:8000" (failingServer 401) true sampleState
          .undefined).1.auth = sampleState.auth :=
  load_failure_is_status_blind intEngine "http://localhost:8000" (failingServer 401)
    (failingServer 500) true sampleState .undefined
    (fun _ => Or.inr ⟨401, 500, _, by decide, by decide, rfl, rfl⟩)

/-- C4, counterexample to the claim as stated. The report fetch succeeds with a list of two
reports and the analytics fetch fails with status 500; `loadData` nevertheless leaves
`reports` at its previous value, which differs from the fetched list. -/
theorem load_partial_failure_counterexample :
    (fetchReports intEngine "http://localhost:8000" analyticsDownServer (.str "t0")).2
        = .ok (.arr [reportJson 7 "Pending", reportJson 8 "Pending"])
      ∧ (fetchAnalytics intEngine "http://localhost:8000" analyticsDownServer (.str "t0")).2
        = .error (mkError "analytics unavailable")
      ∧ (loadData intEngine "http://localhost:8000" analyticsDownServer true sampleState
          .undefined).1.reports = sampleState.reports
      ∧ sampleState.reports ≠ .arr [reportJson 7 "Pending", reportJson 8 "Pending"] := by
  refine ⟨rfl, rfl, rfl, ?_⟩
  intro h
  simp [sampleState] at h

/-- C4, amended. In `loadData` (called with a truthy token) the two fetches are applied all or
nothing: when both succeed, `reports` and `analytics` are replaced by the fetched values; when
exactly one fails, neither is replaced and the shared `error` field receives the message of the
failure; when both fail, `error` receives the message of the one that settled first. The
requests of both fetches are issued in every case. -/
theorem load_all_or_nothing (E : Engine Num) (apiBase : String)
    (net : Request Num → Outcome Num) (firstWins : Bool) (s : AppState Num) (arg : JsVal Num)
    (ht : (loadToken s arg).truthy E = true) :
    (∀ rv av, (fetchReports E apiBase net (loadToken s arg)).2 = .ok rv →
        (fetchAnalytics E apiBase net (loadToken s arg)).2 = .ok av →
        (loadData E apiBase net firstWins s arg).1 = { s with reports := rv, analytics := av })
      ∧ (∀ rv e, (fetchReports E apiBase net (loadToken s arg)).2 = .ok rv →
        (fetchAnalytics E apiBase net (loadToken s arg)).2 = .error e →
        (loadData E apiBase net firstWins s arg).1 = { s with error := e.message })
      ∧ (∀ e av, (fetchReports E apiBase net (loadToken s arg)).2 = .error e →
        (fetchAnalytics E apiBase net (loadToken s arg)).2 = .ok av →
        (loadData E apiBase net firstWins s arg).1 = { s with error := e.message })
      ∧ (∀ e1 e2, (fetchReports E apiBase net (loadToken s arg)).2 = .error e1 →
        (fetchAnalytics E apiBase net (loadToken s arg)).2 = .error e2 →
        (loadData E apiBase net firstWins s arg).1
          = { s with error := (if firstWins then e1 else e2).message })
      ∧ (loadData E apiBase net firstWins s arg).2
          = (fetchReports E apiBase net (loadToken s arg)).1
            ++ (fetchAnalytics E apiBase net (loadToken s arg)).1 := by
  refine ⟨?_, ?_, ?_, ?_, ?_⟩
  · intro rv av hr ha
    simp [loadData, ht, hr, ha, promiseAll]
  · intro rv e hr ha
    simp [loadData, ht, hr, ha, promiseAll]
  · intro e av hr ha
    simp [loadData, ht, hr, ha, promiseAll]
  · intro e1 e2 hr ha
    simp [loadData, ht, hr, ha, promiseAll]
  · simp only [loadData, ht, Bool.not_true, Bool.false_eq_true, if_false]
    split <;> rfl

/-- C4, amended, at the server whose analytics read fails: nothing is replaced and `error`
holds the message of the analytics failure. -/
theorem load_all_or_nothing_witness :
    (loadData intEngine "http://localhost:8000" analyticsDownServer true sampleState
        .undefined).1 = { sampleState with error := "analytics unavailable" } :=
  (load_all_or_nothing intEngine "http://localhost:8000" analyticsDownServer true sampleState
    .undefined rfl).2.1 _ (mkError "analytics unavailable") rfl rfl

/-! ## Theorems: `setStatus` -/

theorem setStatus_response_ignored (E : Engine Num) (apiBase : String)
    (net : Request Num → Outcome Num) (firstWins : Bool) (s : AppState Num) (id : JsVal Num)
    (statusLabel : String) (req : Request Num) (status : Nat)
    (json : Except JsError (JsVal Num))
    (hreq : setStatusRequest E apiBase s id statusLabel = .ok req)
    (hnet : net req = .response status json) :
    setStatus E apiBase net firstWins s id statusLabel
      = { state := (loadData E apiBase net firstWins s .undefined).1
          requests := req :: (loadData E apiBase net firstWins s .undefined).2
          rejection := none } := by
  simp [setStatus, hreq, hnet]

/-- C3, at the failing input. The dashboard holds one pending report; the operator sets report
7 to Resolved and the server rejects the write with status 404. `setStatus` still runs
`loadData`: the requests issued are the write followed by the two reads, `reports` and
`analytics` are replaced by the freshly fetched values, which differ from the snapshots held
before the call, and no message is stored in `error`. -/
theorem setStatus_rejected_write_still_reloads :
    (∃ req, setStatusRequest intEngine "http://localhost:8000" sampleState (.num (some 7))
          "Resolved" = .ok req
        ∧ rejectingServer req = .response 404 (.ok bodyDetailText) ∧ isOk 404 = false)
      ∧ (setStatus intEngine "http://localhost:8000" rejectingServer true sampleState
          (.num (some 7)) "Resolved").requests.map (fun r => (r.method, r.url))
        = [("PATCH", "http://localhost:8000/reports/7/status"),
           ("GET", "http://localhost:8000/reports"),
           ("GET", "http://localhost:8000/reports/analytics")]
      ∧ (setStatus intEngine "http://localhost:8000" rejectingServer true sampleState
          (.num (some 7)) "Resolved").state.reports
        = .arr [reportJson 7 "Pending", reportJson 8 "Pending"]
      ∧ (setStatus intEngine "http://localhost:8000" rejectingServer true sampleState
          (.num (some 7)) "Resolved").state.reports ≠ sampleState.reports
      ∧ (setStatus intEngine "http://localhost:8000" rejectingServer true sampleState
          (.num (some 7)) "Resolved").state.analytics = analyticsJson "Critical" 2
      ∧ (setStatus intEngine "http://localhost:8000" rejectingServer true sampleState
          (.num (some 7)) "Resolved").state.error = ""
      ∧ (setStatus intEngine "http://localhost:8000" rejectingServer true sampleState
          (.num (some 7)) "Resolved").rejection = none := by
  refine ⟨⟨_, rfl, rfl, by decide⟩, rfl, rfl, ?_, rfl, rfl, rfl⟩
  intro h
  have h2 : (JsVal.arr [reportJson 7 "Pending", reportJson 8 "Pending"] : JsVal (Option Int))
      = sampleState.reports := h
  simp [sampleState] at h2

/-! ## Theorems: the plan page lists -/

theorem mapThrowing_ok {α β : Type} (f : α → Except JsError β) (g : α → β) (xs : List α)
    (h : ∀ x ∈ xs, f x = .ok (g x)) : mapThrowing f xs = .ok (xs.map g) := by
  induction xs with
  | nil => rfl
  | cons x rest ih =>
    have hx : f x = .ok (g x) := h x (List.mem_cons_self x rest)
    have hrest : mapThrowing f rest = .ok (rest.map g) :=
      ih (fun y hy => h y (List.mem_cons_of_mem x hy))
    simp [mapThrowing, hx, hrest, bind, Except.bind, pure, Except.pure]

theorem concatStrings_cons_data (a : String) (rest : List String) :
    (concatStrings (a :: rest)).data = a.data ++ (concatStrings rest).data := by
  simp [concatStrings, String.data_append]

theorem listItems_ne_emptyItem (t : String) (rest : List String) :
    concatStrings (("<li>" ++ t ++ "</li>") :: rest) ≠ emptyItem := by
  intro h
  have h2 := congrArg String.data h
  rw [concatStrings_cons_data] at h2
  simp [String.data_append, emptyItem] at h2

theorem listItems_ne_empty (t : String) (rest : List String) :
    concatStrings (("<li>" ++ t ++ "</li>") :: rest) ≠ "" := by
  intro h
  have h2 := congrArg String.data h
  rw [concatStrings_cons_data] at h2
  simp [String.data_append] at h2

theorem intercalate_go_append (sep x y : String) (l : List String) :
    String.intercalate.go (x ++ y) sep l = x ++ String.intercalate.go y sep l := by
  induction l generalizing y with
  | nil => simp [String.intercalate.go]
  | cons a rest ih =>
    simp only [String.intercalate.go]
    rw [← ih]
    simp [String.append_assoc]

theorem intercalate_cons_cons (sep a b : String) (rest : List String) :
    sep.intercalate (a :: b :: rest) = a ++ sep ++ sep.intercalate (b :: rest) := by
  simp only [String.intercalate, String.intercalate.go]
  rw [intercalate_go_append]

theorem joinItems_strings (E : Engine Num) (sep : String) (ss : List String) :
    JsVal.joinItems E sep (ss.map .str) = .ok (sep.intercalate ss) := by
  induction ss with
  | nil => rfl
  | cons a rest ih =>
    cases rest with
    | nil =>
      simp [JsVal.joinItems, JsVal.isNullish, JsVal.toStr, String.intercalate,
        String.intercalate.go, bind, Except.bind, pure, Except.pure]
    | cons b rest2 =>
      rw [intercalate_cons_cons]
      simp only [List.map_cons] at ih ⊢
      rw [JsVal.joinItems]
      simp [JsVal.isNullish, JsVal.toStr, ih, bind, Except.bind, pure, Except.pure]

theorem listMarkup_array (E : Engine Num) (xs : List (JsVal Num))
    (formatter : JsVal Num → Except JsError (JsVal Num)) (g : JsVal Num → String)
    (hf : ∀ x ∈ xs, (formatter x >>= JsVal.toStr E) = .ok (g x)) :
    listMarkup E (.arr xs) formatter
      = .ok (if xs.isEmpty then emptyItem
             else concatStrings (xs.map fun x => "<li>" ++ g x ++ "</li>")) := by
  cases xs with
  | nil =>
    simp [listMarkup, JsVal.length, JsVal.truthy, E.truthy_ofNat, bind, Except.bind, pure,
      Except.pure]
  | cons x rest =>
    have hmap := mapThrowing_ok
      (fun item => do
        let v ← formatter item
        let text ← v.toStr E
        pure ("<li>" ++ text ++ "</li>"))
      (fun x => "<li>" ++ g x ++ "</li>") (x :: rest)
      (by
        intro y hy
        have h := hf y hy
        simp only [bind, Except.bind, pure, Except.pure] at h ⊢
        cases hfy : formatter y with
        | error e => simp [hfy] at h
        | ok v =>
          simp only [hfy] at h
          simp [h])
    simp only [bind, Except.bind, pure, Except.pure] at hmap
    simp only [listMarkup, JsVal.length, JsVal.truthy, E.truthy_ofNat, bind, Except.bind, pure,
      Except.pure, hmap]
    simp

/-- C10, counterexample to the claim as stated. For `urgent_signals` holding the single
string `""` the sequence is not empty and its items joined by `", "` give the empty text, yet
the page shows `None`. -/
theorem joinOrNone_counterexample :
    joinOrNone intEngine (.arr ([""].map .str)) = .ok "None"
      ∧ ([""] : List String) ≠ []
      ∧ ", ".intercalate [""] = ""
      ∧ "None" ≠ ", ".intercalate [""] :=
  ⟨rfl, by decide, rfl, by decide⟩

/-- C10, amended. For an array `items` whose elements the formatter renders without throwing,
`listMarkup` returns the single empty-state item iff the array is empty and otherwise the
concatenation of one `<li>…</li>` per element in input order, so its result is never the empty
string. For a sequence of strings, the `urgent_signals` and `risk_context` text is the items
joined by `", "` when that joined text is not empty, and `None` when it is empty, in particular
for the empty sequence. -/
theorem plan_lists_render_marker (E : Engine Num) (xs : List (JsVal Num))
    (formatter : JsVal Num → Except JsError (JsVal Num)) (g : JsVal Num → String)
    (hf : ∀ x ∈ xs, (formatter x >>= JsVal.toStr E) = .ok (g x)) (ss : List String) :
    listMarkup E (.arr xs) formatter
        = .ok (if xs.isEmpty then emptyItem
               else concatStrings (xs.map fun x => "<li>" ++ g x ++ "</li>"))
      ∧ (listMarkup E (.arr xs) formatter = .ok emptyItem ↔ xs = [])
      ∧ listMarkup E (.arr xs) formatter ≠ .ok ""
      ∧ joinOrNone E (.arr (ss.map .str))
        = .ok (if ", ".intercalate ss = "" then "None" else ", ".intercalate ss)
      ∧ joinOrNone E (.arr []) = .ok "None" := by
  have hmain := listMarkup_array E xs formatter g hf
  have hjoin : ∀ l : List String, joinOrNone E (.arr (l.map .str))
      = .ok (if ", ".intercalate l = "" then "None" else ", ".intercalate l) := by
    intro l
    simp only [joinOrNone, JsVal.join, joinItems_strings, bind, Except.bind, pure, Except.pure]
    by_cases h : ", ".intercalate l = "" <;> simp [h]
  refine ⟨hmain, ?_, ?_, hjoin ss, ?_⟩
  · rw [hmain]
    cases xs with
    | nil => simp
    | cons x rest =>
      simp only [List.map_cons, List.isEmpty_cons, Bool.false_eq_true, reduceCtorEq, if_false,
        Except.ok.injEq, iff_false]
      exact listItems_ne_emptyItem (g x) _
  · rw [hmain]
    cases xs with
    | nil => simp [emptyItem]
    | cons x rest =>
      simp only [List.map_cons, List.isEmpty_cons, Bool.false_eq_true, if_false, ne_eq,
        Except.ok.injEq]
      exact listItems_ne_empty (g x) _
  · exact hjoin []

/-- C10, amended, at a list of two actions and at two signals. -/
theorem plan_lists_render_marker_witness :
    listMarkup intEngine (.arr [.str "Evacuate the block", .str "Dispatch engine 4"])
        actionFormatter
        = .ok "<li>Evacuate the block</li><li>Dispatch engine 4</li>"
      ∧ joinOrNone intEngine (.arr [.str "smoke", .str "trapped persons"])
        = .ok "smoke, trapped persons" := by
  have h := plan_lists_render_marker intEngine
    [.str "Evacuate the block", .str "Dispatch engine 4"] actionFormatter textOf
    (by
      intro x hx
      simp only [List.mem_cons, List.mem_singleton, List.not_mem_nil, or_false] at hx
      rcases hx with rfl | rfl <;> rfl)
    ["smoke", "trapped persons"]
  refine ⟨?_, ?_⟩
  · rw [h.1]
    rfl
  · have h4 := h.2.2.2.1
    simp only [List.map_cons, List.map_nil] at h4
    rw [h4]
    rfl

/-! ## Theorems: the submit handler of the plan page -/

theorem finallyBlock_button (p : Page) :
    (finallyBlock p).submitDisabled = false
      ∧ (finallyBlock p).submitText = "Generate AI Response Plan" :=
  ⟨rfl, rfl⟩

theorem submitFinish_button (E : Engine Num) (p : Page) (o : Outcome Num) :
    (submitFinish E p o).submitDisabled = false
      ∧ (submitFinish E p o).submitText = "Generate AI Response Plan" := by
  unfold submitFinish
  split <;> exact finallyBlock_button _

theorem submitFinish_failure (E : Engine Num) (p : Page) (o : Outcome Num) (err : JsError)
    (h : (tryBlock E p o).2 = some err) :
    (submitFinish E p o).triageCard
      = { emptyState := true, content := .text ("Error: " ++ err.message) } := by
  unfold submitFinish
  split
  · rename_i p1 heq
    rw [heq] at h
    cases h
  · rename_i p1 e heq
    rw [heq] at h
    cases h
    rfl

theorem tryBlock_bad_status (E : Engine Num) (p : Page) (status : Nat)
    (json : Except JsError (JsVal Num)) (h : isOk status = false) :
    ∃ err, (tryBlock E p (.response status json)).2 = some err := by
  cases json with
  | error e => exact ⟨e, rfl⟩
  | ok result =>
    simp only [tryBlock, h, bind, Except.bind, pure, Except.pure, throw, throwThe,
      MonadExceptOf.throw]
    cases hg : result.get E "error" with
    | error e => exact ⟨e, by simp⟩
    | ok error =>
      cases hs : (JsVal.or E error (.str "Could not process request")).toStr E with
      | error e => exact ⟨e, by simp [hs]⟩
      | ok m => exact ⟨mkError m, by simp [hs]⟩

theorem tryBlock_server_error (E : Engine Num) (p : Page) (status : Nat) (result : JsVal Num)
    (m : String) (h : isOk status = false) (hg : result.get E "error" = .ok (.str m))
    (hm : m ≠ "") :
    (tryBlock E p (.response status (.ok result))).2 = some (mkError m) := by
  have hst : (JsVal.str m).truthy E = true := by simp [JsVal.truthy, hm]
  simp [tryBlock, h, hg, JsVal.or, hst, JsVal.toStr, bind, Except.bind, throw, throwThe,
    MonadExceptOf.throw]

/-- C9. The submit handler sets the button to disabled (label `Analyzing...`) in the state in
which the request is issued. Whatever the request produces (`fetch` rejecting, a body that is
not JSON, a non-success response, a success response that renders, or a payload that makes the
rendering throw), the handler ends with the button enabled and labelled
`Generate AI Response Plan`. Whenever the `try` block throws, the triage card ends up holding
`Error: ` followed by the message of the thrown error; a transport error, an unparsable body
and every non-success response are such failures, and a non-success response with a non-empty
`error` string throws an error with exactly that string as message. -/
theorem submit_busy_state (E : Engine Num) (net : Request Num → Outcome Num) (p : Page)
    (o : Outcome Num) :
    ((submitStart E p).1.submitDisabled = true ∧ (submitStart E p).1.submitText = "Analyzing...")
      ∧ ((submitFinish E (submitStart E p).1 o).submitDisabled = false
        ∧ (submitFinish E (submitStart E p).1 o).submitText = "Generate AI Response Plan")
      ∧ ((submitHandler E net p).submitDisabled = false
        ∧ (submitHandler E net p).submitText = "Generate AI Response Plan")
      ∧ (∀ err, (tryBlock E (submitStart E p).1 o).2 = some err →
          (submitFinish E (submitStart E p).1 o).triageCard
            = { emptyState := true, content := .text ("Error: " ++ err.message) })
      ∧ (∀ e, o = .rejected e → (tryBlock E (submitStart E p).1 o).2 = some e)
      ∧ (∀ status e, o = .response status (.error e) →
          (tryBlock E (submitStart E p).1 o).2 = some e)
      ∧ (∀ status json, o = .response status json → isOk status = false →
          ∃ err, (tryBlock E (submitStart E p).1 o).2 = some err)
      ∧ (∀ status result m, o = .response status (.ok result) → isOk status = false →
          result.get E "error" = .ok (.str m) → m ≠ "" →
          (submitFinish E (submitStart E p).1 o).triageCard
            = { emptyState := true, content := .text ("Error: " ++ m) }) := by
  refine ⟨⟨rfl, rfl⟩, submitFinish_button E _ o, submitFinish_button E _ _, ?_, ?_, ?_, ?_, ?_⟩
  · intro err h
    exact submitFinish_failure E _ o err h
  · intro e h
    subst h
    rfl
  · intro status e h
    subst h
    rfl
  · intro status json h hs
    subst h
    exact tryBlock_bad_status E _ status json hs
  · intro status result m h hs hg hm
    subst h
    exact submitFinish_failure E _ _ (mkError m)
      (tryBlock_server_error E _ status result m hs hg hm)

/-- C9, at concrete outcomes: a transport error, a success payload without `triage` (the
rendering throws), and a non-success response carrying an `error` string. In each case the
button is enabled again and the triage card shows the error. -/
theorem submit_busy_state_witness :
    (submitFinish intEngine (submitStart intEngine samplePage).1
        (.rejected { name := "TypeError", message := "Failed to fetch" })).triageCard
        = { emptyState := true, content := .text "Error: Failed to fetch" }
      ∧ (submitFinish intEngine (submitStart intEngine samplePage).1
          (.response 200 (.ok (.obj [])))).triageCard
        = { emptyState := true
            content := .text "Error: Cannot read properties of undefined (reading 'incident_type')" }
      ∧ (submitFinish intEngine (submitStart intEngine samplePage).1
          (.response 500 (.ok (.obj [("error", .str "planner offline")])))).triageCard
        = { emptyState := true, content := .text "Error: planner offline" }
      ∧ (submitFinish intEngine (submitStart intEngine samplePage).1
          (.response 200 (.ok (.obj [])))).submitDisabled = false :=
  ⟨(submit_busy_state intEngine (fun _ => .rejected ⟨"TypeError", "Failed to fetch"⟩) samplePage
      (.rejected ⟨"TypeError", "Failed to fetch"⟩)).2.2.2.1 ⟨"TypeError", "Failed to fetch"⟩ rfl,
    (submit_busy_state intEngine (fun _ => .response 200 (.ok (.obj []))) samplePage
      (.response 200 (.ok (.obj [])))).2.2.2.1
      ⟨"TypeError", "Cannot read properties of undefined (reading 'incident_type')"⟩ rfl,
    (submit_busy_state intEngine (fun _ => .response 500 (.ok (.obj [("error", .str "planner offline")])))
      samplePage (.response 500 (.ok (.obj [("error", .str "planner offline")])))).2.2.2.2.2.2.2
      500 _ "planner offline" rfl (by decide) rfl (by decide),
    (submit_busy_state intEngine (fun _ => .response 200 (.ok (.obj []))) samplePage
      (.response 200 (.ok (.obj [])))).2.1.1⟩

/-- The success path on the sample plan: the three panels are rendered, empty series show an
explicit marker, and the button is enabled again. -/
theorem submit_success_example :
    (submitFinish intEngine (submitStart intEngine samplePage).1
        (.response 200 (.ok samplePlan))).recommendations
        = { emptyState := false, content := .html emptyItem }
      ∧ (submitFinish intEngine (submitStart intEngine samplePage).1
          (.response 200 (.ok samplePlan))).actions
        = { emptyState := false
            content := .html "<li>Evacuate the block</li><li>Dispatch engine 4</li>" }
      ∧ (submitFinish intEngine (submitStart intEngine samplePage).1
          (.response 200 (.ok samplePlan))).submitDisabled = false :=
  ⟨rfl, rfl, rfl⟩

end EmergencyApp
